import Mathlib

/-!
Verification of the attachment widget of the BuildingManagement repository
(`building_management/static/js/attachments.js`), as a shallow embedding in
Lean 4.  Numbers that the JavaScript code manipulates as IEEE doubles are
idealised as rationals (`ℚ`); `Number.prototype.toFixed(2)` followed by
`parseFloat` is idealised as decimal rounding to two places with ties
rounded up, which is the rounding rule the ECMAScript specification
prescribes for `toFixed`.  `Math.hypot`, a platform primitive, is kept as
an explicit function parameter of the pointer handlers.
-/

namespace BuildingManagement
namespace Attachments

/-! ### Lightbox viewer state (attachments.js, lines 59-70) -/

/-- `const SCALE_STEP = 0.25` (line 60). -/
def SCALE_STEP : ℚ := 25 / 100

/-- `const MIN_SCALE = 1` (line 61). -/
def MIN_SCALE : ℚ := 1

/-- `const MAX_SCALE = 5` (line 62). -/
def MAX_SCALE : ℚ := 5

/-- One entry of the `pointers` map: a pointer id together with the last
known `clientX`/`clientY` position of that pointer. -/
structure Pointer where
  id : ℕ
  clientX : ℚ
  clientY : ℚ
deriving DecidableEq

/-- The mutable lightbox view state declared in lines 59-70 of
attachments.js (`scale`, `panX`, `panY`, `isDragging`, `dragStartX`,
`dragStartY`, `initialPinchDistance`, `pinchStartScale`, and the
`pointers` map).  The `pointers` map is modelled as an insertion-ordered
association list, matching the iteration order of a JavaScript `Map`. -/
structure LightboxState where
  scale : ℚ
  panX : ℚ
  panY : ℚ
  isDragging : Bool
  dragStartX : ℚ
  dragStartY : ℚ
  initialPinchDistance : ℚ
  pinchStartScale : ℚ
  pointers : List Pointer
deriving DecidableEq

/-- The initial values given to the lightbox state variables
(lines 59-70): `scale = 1`, `panX = panY = 0`, no dragging, no pinch
baseline, empty pointer map.  `openOverlay` re-establishes exactly these
values through `resetTransform` before the lightbox is shown. -/
def initialLightbox : LightboxState :=
  { scale := 1, panX := 0, panY := 0, isDragging := false,
    dragStartX := 0, dragStartY := 0, initialPinchDistance := 0,
    pinchStartScale := 1, pointers := [] }

/-- `pointers.set(id, event)`: a JavaScript `Map.set` keeps the insertion
position of an existing key and appends a fresh key at the end. -/
def pointersSet (ps : List Pointer) (p : Pointer) : List Pointer :=
  if ps.any (fun q => q.id = p.id) then
    ps.map (fun q => if q.id = p.id then p else q)
  else
    ps ++ [p]

/-- `pointers.delete(id)`. -/
def pointersDelete (ps : List Pointer) (i : ℕ) : List Pointer :=
  ps.filter (fun q => q.id ≠ i)

/-- `pointers.has(id)`. -/
def pointersHas (ps : List Pointer) (i : ℕ) : Bool :=
  ps.any (fun q => q.id = i)

/-- Decimal rounding to two places: the composite
`parseFloat(x.toFixed(2))` used by `setScale` (line 449).  `toFixed`
rounds to the nearest hundredth, ties towards the larger value, which is
`round` (round half up) on the scaled argument. -/
def round2 (q : ℚ) : ℚ :=
  ((round (q * 100) : ℤ) : ℚ) / 100

/-- `setScale(next, options)` (lines 446-455): clamp to
`[MIN_SCALE, MAX_SCALE]`, quantise to two decimals, and reset the pan to
the origin when the pan is not kept and the scale snapped to `MIN_SCALE`. -/
def setScale (s : LightboxState) (next : ℚ) (keepPan : Bool) : LightboxState :=
  let clamped := min MAX_SCALE (max MIN_SCALE next)
  let newScale := round2 clamped
  if keepPan = false ∧ newScale = MIN_SCALE then
    { s with scale := newScale, panX := 0, panY := 0 }
  else
    { s with scale := newScale }

/-- `stepZoom(delta)` (lines 442-444). -/
def stepZoom (s : LightboxState) (delta : ℚ) : LightboxState :=
  setScale s (s.scale + delta) false

/-- `resetTransform()` (lines 457-462). -/
def resetTransform (s : LightboxState) : LightboxState :=
  { s with scale := 1, panX := 0, panY := 0 }

/-- `distanceBetween(a, b)` (lines 554-556), with `Math.hypot` passed in
as an explicit function parameter. -/
def distanceBetween (hypot : ℚ → ℚ → ℚ) (a b : Pointer) : ℚ :=
  hypot (a.clientX - b.clientX) (a.clientY - b.clientY)

/-- `onWheel(event)` (lines 478-491): one wheel tick steps the zoom by
`SCALE_STEP` in the wheel direction, and when the scale actually grew the
pan is additionally nudged by 5% of the cursor offset from the image
centre.  The bounding rectangle of the image is part of the event data. -/
def onWheel (s : LightboxState)
    (deltaY clientX clientY rectLeft rectTop rectWidth rectHeight : ℚ) :
    LightboxState :=
  let direction : ℚ := if deltaY < 0 then 1 else -1
  let prevScale := s.scale
  let s1 := stepZoom s (direction * SCALE_STEP)
  if prevScale < s1.scale then
    let offsetX := clientX - (rectLeft + rectWidth / 2)
    let offsetY := clientY - (rectTop + rectHeight / 2)
    { s1 with panX := s1.panX + offsetX * (5 / 100),
              panY := s1.panY + offsetY * (5 / 100) }
  else
    s1

/-- The first two entries of the pointer map, in insertion order:
`Array.from(pointers.values())` at indices 0 and 1. -/
def firstTwo : List Pointer → Option (Pointer × Pointer)
  | a :: b :: _ => some (a, b)
  | _ => none

/-- `onPointerDown(event)` (lines 493-513), minus the DOM-only effects
(pointer capture, the dragging CSS class). -/
def onPointerDown (hypot : ℚ → ℚ → ℚ) (s : LightboxState) (p : Pointer) :
    LightboxState :=
  let ps := pointersSet s.pointers p
  if ps.length = 1 then
    { s with pointers := ps,
             isDragging := decide (1 < s.scale),
             dragStartX := p.clientX - s.panX,
             dragStartY := p.clientY - s.panY }
  else if ps.length = 2 then
    match firstTwo ps with
    | some (a, b) =>
        { s with pointers := ps,
                 initialPinchDistance := distanceBetween hypot a b,
                 pinchStartScale := s.scale }
    | none => { s with pointers := ps }
  else
    { s with pointers := ps }

/-- `onPointerMove(event)` (lines 515-534). -/
def onPointerMove (hypot : ℚ → ℚ → ℚ) (s : LightboxState) (p : Pointer) :
    LightboxState :=
  if pointersHas s.pointers p.id = false then
    s
  else
    let ps := pointersSet s.pointers p
    let s1 := { s with pointers := ps }
    if ps.length = 1 ∧ s1.isDragging = true then
      match ps with
      | q :: _ =>
          { s1 with panX := q.clientX - s1.dragStartX,
                    panY := q.clientY - s1.dragStartY }
      | [] => s1
    else if ps.length = 2 then
      match firstTwo ps with
      | some (a, b) =>
          let currentDistance := distanceBetween hypot a b
          if 0 < s1.initialPinchDistance then
            setScale s1 (s1.pinchStartScale * (currentDistance / s1.initialPinchDistance)) true
          else
            s1
      | none => s1
    else
      s1

/-- `onPointerUp(event)` (lines 536-552), minus the DOM-only effects. -/
def onPointerUp (s : LightboxState) (i : ℕ) : LightboxState :=
  let ps := pointersDelete s.pointers i
  let s1 := { s with pointers := ps }
  let s2 :=
    if ps.length < 2 then
      { s1 with initialPinchDistance := 0, pinchStartScale := s1.scale }
    else
      s1
  if ps.length = 0 then { s2 with isDragging := false } else s2

/-- The operations a user can perform on the open lightbox: discrete zoom
steps (toolbar buttons or the `+`/`-` keys), reset (toolbar button or the
`0` key), wheel ticks, and raw pointer events (which subsume drag-to-pan
and pinch-gesture updates). -/
inductive LightboxEvent where
  | zoomIn
  | zoomOut
  | reset
  | wheel (deltaY clientX clientY rectLeft rectTop rectWidth rectHeight : ℚ)
  | pointerDown (p : Pointer)
  | pointerMove (p : Pointer)
  | pointerUp (i : ℕ)
deriving DecidableEq

/-- Dispatch of one lightbox event, following `onOverlayClick`
(lines 390-412), `onKeyDown` (lines 414-440) and the pointer/wheel
listeners registered in `ensureOverlay` (lines 380-384). -/
def stepLightbox (hypot : ℚ → ℚ → ℚ) (s : LightboxState) :
    LightboxEvent → LightboxState
  | .zoomIn => stepZoom s SCALE_STEP
  | .zoomOut => stepZoom s (-SCALE_STEP)
  | .reset => resetTransform s
  | .wheel dY cX cY rL rT rW rH => onWheel s dY cX cY rL rT rW rH
  | .pointerDown p => onPointerDown hypot s p
  | .pointerMove p => onPointerMove hypot s p
  | .pointerUp i => onPointerUp s i

/-- A whole interaction session: fold a sequence of lightbox events over
the freshly opened lightbox state. -/
def runLightbox (hypot : ℚ → ℚ → ℚ) (events : List LightboxEvent) :
    LightboxState :=
  events.foldl (stepLightbox hypot) initialLightbox

/-! ### Attachment gallery (attachments.js, lines 109-268) -/

/-- The metadata projection of one attachment as delivered by the JSON
API and consumed by `renderAttachment` (lines 146-268).  Only the fields
the rendered card depends on are kept; dataset attributes that may be
absent are `Option`s. -/
structure AttachmentMeta where
  id : ℕ
  name : String
  url : Option String
  is_image : Bool
  content_type : Option String
  category : Option String
deriving DecidableEq

/-- One rendered attachment card: the `li.attachments-grid__item` element
whose `data-attachment-id` is `String(meta.id)` (line 153), carrying the
metadata it was rendered from. -/
structure Card where
  attachmentId : String
  meta : AttachmentMeta
deriving DecidableEq

/-- `renderAttachment(meta)` (lines 146-268): `null` (or a non-object
argument, both modelled by `none`) yields no card; an object yields the
card keyed by the stringified id. -/
def renderAttachment : Option AttachmentMeta → Option Card
  | none => none
  | some m => some ⟨toString m.id, m⟩

/-- The gallery DOM state the widget maintains: the ordered card list
inside `[data-attachments]` and the visibility of the
`[data-attachments-empty]` placeholder (`emptyVisible = true` means the
placeholder's `hidden` attribute is cleared). -/
structure Gallery where
  cards : List Card
  emptyVisible : Bool
deriving DecidableEq

/-- `updateEmptyState()` (lines 109-121): the placeholder is hidden
exactly when at least one `.attachments-grid__item` is present. -/
def updateEmptyState (g : Gallery) : Gallery :=
  let hasItems := !g.cards.isEmpty
  if hasItems = true then
    { g with emptyVisible := false }
  else
    { g with emptyVisible := true }

/-- Removal of the first card whose `data-attachment-id` matches:
`attachmentsList.querySelector('[data-attachment-id=...]')` followed by
`existing.remove()` (lines 131-135) removes the first match only. -/
def removeFirstById : List Card → String → List Card
  | [], _ => []
  | c :: cs, i => if c.attachmentId = i then cs else c :: removeFirstById cs i

/-- `addAttachmentFromMeta(meta)` (lines 123-144): render the card, drop
any already rendered card with the same id, insert the new card before
the current first card (i.e. prepend), and re-evaluate the empty state. -/
def addAttachmentFromMeta (g : Gallery) (meta : Option AttachmentMeta) : Gallery :=
  match renderAttachment meta with
  | none => g
  | some card =>
      let remaining := removeFirstById g.cards card.attachmentId
      updateEmptyState { g with cards := card :: remaining }

/-- In-place upsert as the specification's words describe it: when a card
with the id is already rendered, that card is replaced where it stands;
otherwise the new card is prepended at the front.  Written from the spec,
to be compared against `addAttachmentFromMeta`, which is written from the
source. -/
def upsertInPlaceSpec (cards : List Card) (card : Card) : List Card :=
  if cards.any (fun c => c.attachmentId = card.attachmentId) then
    cards.map (fun c => if c.attachmentId = card.attachmentId then card else c)
  else
    card :: cards

/-- The gallery/empty-state exclusivity predicate: exactly one of
"at least one card is rendered" and "the empty-state placeholder is
visible" holds. -/
def galleryExclusive (g : Gallery) : Prop :=
  (g.cards ≠ [] ∧ g.emptyVisible = false) ∨ (g.cards = [] ∧ g.emptyVisible = true)

/-! ### Upload queue (attachments.js, lines 752-887) -/

/-- One entry of the upload response's `errors` array:
`{filename, errors: [reason, ...]}`. -/
structure FileErrors where
  filename : String
  errors : List String
deriving DecidableEq

/-- The JSON body of an upload response as the `load` handler reads it
(lines 815-837).  An absent `error` field is `none`; absent `errors` or
`attachments` arrays behave like empty ones in the handler and are
modelled by `[]`. -/
structure UploadResponse where
  error : Option String
  errors : List FileErrors
  attachments : List (Option AttachmentMeta)
deriving DecidableEq

/-- The localised labels read in `initUploader` (lines 761-766). -/
structure UploadLabels where
  browse : String
  uploading : String
  uploaded : String
  failed : String
deriving DecidableEq

/-- `array.join(", ")`. -/
def joinComma (xs : List String) : String :=
  String.intercalate ", " xs

/-- The error-message resolution of the non-2xx branch (lines 827-832):
`(response && response.error) || (response && response.errors &&
response.errors[0] && response.errors[0].errors ?
response.errors[0].errors.join(", ") : null) || uploadLabels.failed`.
JavaScript falsiness of a missing field or an empty string is modelled by
comparing against `""`; an array (such as `errors[0].errors`) is always
truthy, so the middle condition reduces to `errors` being non-empty. -/
def resolveErrorMessage (response : Option UploadResponse) (failedLabel : String) : String :=
  let first :=
    match response with
    | some r => r.error.getD ""
    | none => ""
  if first ≠ "" then first
  else
    let second :=
      match response with
      | some r =>
          match r.errors with
          | fe :: _ => joinComma fe.errors
          | [] => ""
      | none => ""
    if second ≠ "" then second else failedLabel

/-- The visible state of one upload queue row: its status text, its CSS
state classes, the progress-bar width, and whether (and with which delay,
in milliseconds) `scheduleQueueRemoval` has been called on it. -/
structure QueueItemView where
  nameText : String
  statusText : String
  errorClass : Bool
  completeClass : Bool
  progressWidthPct : ℚ
  removalDelayMs : Option ℕ
deriving DecidableEq

/-- `createQueueItem(name, statusText)` (lines 850-878): a fresh row with
no state classes and no scheduled removal. -/
def createQueueItem (name statusText : String) : QueueItemView :=
  { nameText := name, statusText := statusText, errorClass := false,
    completeClass := false, progressWidthPct := 0, removalDelayMs := none }

/-- The `load` handler of the upload request (lines 815-837), restricted
to the queue item it updates.  On a 2xx status the row is marked
complete, its progress forced to 100%, and `scheduleQueueRemoval`
(lines 880-887) is invoked with its fixed 2500 ms delay; on any other
status the row is marked as an error with the resolved message and no
removal is scheduled. -/
def onUploadLoad (status : ℕ) (response : Option UploadResponse)
    (labels : UploadLabels) (item : QueueItemView) : QueueItemView :=
  if 200 ≤ status ∧ status < 300 then
    { item with errorClass := false, completeClass := true,
                statusText := labels.uploaded, progressWidthPct := 100,
                removalDelayMs := some 2500 }
  else
    { item with errorClass := true,
                statusText := resolveErrorMessage response labels.failed,
                progressWidthPct := 100 }

/-- The `load` handler restricted to the gallery: on a 2xx status every
entry of the response's `attachments` array is merged through
`addAttachmentFromMeta` (lines 823-824); otherwise the gallery is left
alone. -/
def onUploadLoadGallery (status : ℕ) (response : Option UploadResponse)
    (g : Gallery) : Gallery :=
  if 200 ≤ status ∧ status < 300 then
    let metas :=
      match response with
      | some r => r.attachments
      | none => []
    metas.foldl addAttachmentFromMeta g
  else
    g

/-- The `error` (network failure) handler (lines 839-843): error class,
generic failed label, full progress bar, no removal scheduled. -/
def onUploadNetworkFailure (labels : UploadLabels) (item : QueueItemView) : QueueItemView :=
  { item with errorClass := true, statusText := labels.failed,
              progressWidthPct := 100 }

/-- A queue row is in a terminal display state when it carries the
complete class or the error class. -/
def queueItemTerminal (item : QueueItemView) : Bool :=
  item.completeClass || item.errorClass

/-! ### Document preview triggers (attachments.js, lines 97-106, 697-728) -/

/-- The dataset of a `[data-attachment-preview]` trigger: `data-external`,
`data-src` and `data-name`, each possibly absent. -/
structure PreviewTrigger where
  external : Option String
  src : Option String
  name : Option String
deriving DecidableEq

/-- What a click on a preview trigger does: open the URL in a new
browsing context (`window.open(src, "_blank")`), open the document
preview modal on a source with a title, or nothing. -/
inductive PreviewAction where
  | openNewContext (url : Option String)
  | openModal (src : String) (title : String)
  | noAction
deriving DecidableEq

/-- Whether the action opens the document preview modal. -/
def isModalAction : PreviewAction → Bool
  | .openModal _ _ => true
  | _ => false

/-- The preview branch of `onAttachmentsClick` (lines 97-106) combined
with `openDocOverlay` (lines 697-728): a trigger flagged
`data-external="1"` opens a new browsing context and never the modal;
otherwise the modal opens, provided the trigger carries a non-empty
`data-src` (an absent or empty source is a no-op, line 698-700).  The
modal title falls back to the localised preview label. -/
def onPreviewTriggerClick (previewLabel : String) (t : PreviewTrigger) : PreviewAction :=
  if t.external = some "1" then
    .openNewContext t.src
  else
    match t.src with
    | none => .noAction
    | some s => if s = "" then .noAction else .openModal s (t.name.getD previewLabel)

/-! ### Delete-URL decoration (attachments.js, lines 306-324) -/

/-- `new URL(url, window.location.origin)`, reduced to the parts
`decorateDeleteUrl` reads and writes: `pathname`, the ordered
`searchParams` key/value list, and `hash`. -/
structure ParsedUrl where
  pathname : String
  searchParams : List (String × String)
  hash : String
deriving DecidableEq

/-- `searchParams.has(key)`. -/
def hasParam (ps : List (String × String)) (k : String) : Bool :=
  ps.any (fun kv => kv.1 = k)

/-- `searchParams.set(key, value)`: replace the value of the first
occurrence of the key and drop later occurrences, or append the pair when
the key is absent. -/
def setParam : List (String × String) → String → String → List (String × String)
  | [], k, v => [(k, v)]
  | kv :: rest, k, v =>
      if kv.1 = k then (k, v) :: rest.filter (fun kv2 => kv2.1 ≠ k)
      else kv :: setParam rest k v

/-- The main branch of `decorateDeleteUrl(url)` (lines 310-315), on a URL
the platform parsed successfully: when `deleteNext` is truthy and no
`next` parameter is present, set one; then re-serialise
`pathname + search + hash`. -/
def decorateDeleteUrl (deleteNext : String) (u : ParsedUrl) : ParsedUrl :=
  if deleteNext ≠ "" ∧ hasParam u.searchParams "next" = false then
    { u with searchParams := setParam u.searchParams "next" deleteNext }
  else
    u

/-- Whether `sub` is an initial segment of `hay`. -/
def listStartsWith : List Char → List Char → Bool
  | _, [] => true
  | [], _ :: _ => false
  | h :: hs, n :: ns => h = n && listStartsWith hs ns

/-- Whether `sub` occurs contiguously somewhere in `hay`. -/
def listContainsSeq : List Char → List Char → Bool
  | hay, sub =>
      listStartsWith hay sub ||
        match hay with
        | [] => false
        | _ :: t => listContainsSeq t sub

/-- `url.includes(sub)`: the substring occurs somewhere in the string. -/
def urlIncludes (url sub : String) : Bool :=
  listContainsSeq url.toList sub.toList

/-- The fallback branch of `decorateDeleteUrl` (lines 319-323), taken
when the URL constructor throws: leave the string alone when it already
contains `"next="` or there is no `deleteNext`, otherwise append
`next=<encoded deleteNext>` with `?` or `&` as glue.
`encodeURIComponent` is a platform primitive and is passed in. -/
def decorateDeleteUrlNoParse (encode : String → String)
    (deleteNext url : String) : String :=
  if urlIncludes url "next=" = true ∨ deleteNext = "" then
    url
  else
    let glue := if urlIncludes url "?" = true then "&" else "?"
    url ++ glue ++ "next=" ++ encode deleteNext

/-! ### Helper lemmas about the lightbox arithmetic -/

lemma one_le_round2 {q : ℚ} (h : 1 ≤ q) : 1 ≤ round2 q := by
  unfold round2
  rw [round_eq]
  have h100 : (100 : ℤ) ≤ ⌊q * 100 + 1 / 2⌋ := by
    apply Int.le_floor.mpr
    push_cast
    linarith
  have h100q : (100 : ℚ) ≤ (⌊q * 100 + 1 / 2⌋ : ℤ) := by exact_mod_cast h100
  linarith

lemma round2_le_five {q : ℚ} (h : q ≤ 5) : round2 q ≤ 5 := by
  unfold round2
  rw [round_eq]
  have hfl : ((⌊q * 100 + 1 / 2⌋ : ℤ) : ℚ) < 501 :=
    lt_of_le_of_lt (Int.floor_le _) (by linarith)
  have hz : ⌊q * 100 + 1 / 2⌋ < 501 := by exact_mod_cast hfl
  have hz' : ⌊q * 100 + 1 / 2⌋ ≤ 500 := by omega
  have hq : ((⌊q * 100 + 1 / 2⌋ : ℤ) : ℚ) ≤ 500 := by exact_mod_cast hz'
  linarith

lemma round2_cent (q : ℚ) : ∃ k : ℤ, round2 q = (k : ℚ) / 100 :=
  ⟨round (q * 100), rfl⟩

lemma clamp_mem (next : ℚ) :
    MIN_SCALE ≤ min MAX_SCALE (max MIN_SCALE next)
      ∧ min MAX_SCALE (max MIN_SCALE next) ≤ MAX_SCALE := by
  constructor
  · exact le_min (by norm_num [MIN_SCALE, MAX_SCALE]) (le_max_left _ _)
  · exact min_le_left _ _

lemma setScale_scale (s : LightboxState) (next : ℚ) (keepPan : Bool) :
    (setScale s next keepPan).scale = round2 (min MAX_SCALE (max MIN_SCALE next)) := by
  unfold setScale
  dsimp only
  split <;> rfl

lemma setScale_scale_bounds (s : LightboxState) (next : ℚ) (keepPan : Bool) :
    MIN_SCALE ≤ (setScale s next keepPan).scale
      ∧ (setScale s next keepPan).scale ≤ MAX_SCALE := by
  rw [setScale_scale]
  obtain ⟨h1, h2⟩ := clamp_mem next
  rw [MIN_SCALE] at h1 ⊢
  rw [MAX_SCALE] at h2 ⊢
  exact ⟨one_le_round2 h1, round2_le_five h2⟩

lemma setScale_panX (s : LightboxState) (next : ℚ) (keepPan : Bool) :
    (setScale s next keepPan).panX =
      if keepPan = false ∧ round2 (min MAX_SCALE (max MIN_SCALE next)) = MIN_SCALE
      then 0 else s.panX := by
  unfold setScale
  dsimp only
  split_ifs <;> rfl

lemma setScale_panY (s : LightboxState) (next : ℚ) (keepPan : Bool) :
    (setScale s next keepPan).panY =
      if keepPan = false ∧ round2 (min MAX_SCALE (max MIN_SCALE next)) = MIN_SCALE
      then 0 else s.panY := by
  unfold setScale
  dsimp only
  split_ifs <;> rfl

lemma onPointerDown_scale (hypot : ℚ → ℚ → ℚ) (s : LightboxState) (p : Pointer) :
    (onPointerDown hypot s p).scale = s.scale := by
  unfold onPointerDown
  dsimp only
  split
  · rfl
  · split
    · split <;> rfl
    · rfl

lemma onPointerUp_scale (s : LightboxState) (i : ℕ) :
    (onPointerUp s i).scale = s.scale := by
  unfold onPointerUp
  dsimp only
  split <;> split <;> rfl

lemma onPointerMove_scale_cases (hypot : ℚ → ℚ → ℚ) (s : LightboxState) (p : Pointer) :
    (onPointerMove hypot s p).scale = s.scale
      ∨ ∃ n, (onPointerMove hypot s p).scale
          = round2 (min MAX_SCALE (max MIN_SCALE n)) := by
  unfold onPointerMove
  dsimp only
  split
  · exact Or.inl rfl
  · split
    · split <;> exact Or.inl rfl
    · split
      · split
        · split
          · exact Or.inr ⟨_, setScale_scale _ _ _⟩
          · exact Or.inl rfl
        · exact Or.inl rfl
      · exact Or.inl rfl

lemma onWheel_scale (s : LightboxState)
    (deltaY clientX clientY rectLeft rectTop rectWidth rectHeight : ℚ) :
    (onWheel s deltaY clientX clientY rectLeft rectTop rectWidth rectHeight).scale
      = round2 (min MAX_SCALE (max MIN_SCALE
          (s.scale + (if deltaY < 0 then 1 else -1) * SCALE_STEP))) := by
  unfold onWheel stepZoom
  dsimp only
  split_ifs <;> simp [setScale_scale]

lemma stepLightbox_scale_cases (hypot : ℚ → ℚ → ℚ) (s : LightboxState)
    (e : LightboxEvent) :
    (stepLightbox hypot s e).scale = s.scale
      ∨ (stepLightbox hypot s e).scale = 1
      ∨ ∃ n, (stepLightbox hypot s e).scale
          = round2 (min MAX_SCALE (max MIN_SCALE n)) := by
  cases e with
  | zoomIn => exact Or.inr (Or.inr ⟨_, setScale_scale _ _ _⟩)
  | zoomOut => exact Or.inr (Or.inr ⟨_, setScale_scale _ _ _⟩)
  | reset => exact Or.inr (Or.inl rfl)
  | wheel dY cX cY rL rT rW rH => exact Or.inr (Or.inr ⟨_, onWheel_scale _ _ _ _ _ _ _ _⟩)
  | pointerDown p => exact Or.inl (onPointerDown_scale _ _ _)
  | pointerMove p =>
      rcases onPointerMove_scale_cases hypot s p with h | h
      · exact Or.inl h
      · exact Or.inr (Or.inr h)
  | pointerUp i => exact Or.inl (onPointerUp_scale _ _)

lemma stepLightbox_scale_bounds (hypot : ℚ → ℚ → ℚ) (s : LightboxState)
    (e : LightboxEvent)
    (h : MIN_SCALE ≤ s.scale ∧ s.scale ≤ MAX_SCALE) :
    MIN_SCALE ≤ (stepLightbox hypot s e).scale
      ∧ (stepLightbox hypot s e).scale ≤ MAX_SCALE := by
  rcases stepLightbox_scale_cases hypot s e with h1 | h1 | ⟨n, h1⟩
  · rw [h1]; exact h
  · rw [h1]; norm_num [MIN_SCALE, MAX_SCALE]
  · rw [h1]
    obtain ⟨hl, hr⟩ := clamp_mem n
    rw [MIN_SCALE] at hl ⊢
    rw [MAX_SCALE] at hr ⊢
    exact ⟨one_le_round2 hl, round2_le_five hr⟩

lemma stepLightbox_scale_cent (hypot : ℚ → ℚ → ℚ) (s : LightboxState)
    (e : LightboxEvent)
    (h : ∃ k : ℤ, s.scale = (k : ℚ) / 100) :
    ∃ k : ℤ, (stepLightbox hypot s e).scale = (k : ℚ) / 100 := by
  rcases stepLightbox_scale_cases hypot s e with h1 | h1 | ⟨n, h1⟩
  · rw [h1]; exact h
  · exact ⟨100, by rw [h1]; norm_num⟩
  · rw [h1]; exact round2_cent _

lemma foldl_stepLightbox_preserves (hypot : ℚ → ℚ → ℚ)
    (P : LightboxState → Prop)
    (hstep : ∀ s e, P s → P (stepLightbox hypot s e)) :
    ∀ (events : List LightboxEvent) (s : LightboxState),
      P s → P (events.foldl (stepLightbox hypot) s) := by
  intro events
  induction events with
  | nil => intro s hs; exact hs
  | cons e rest ih => intro s hs; exact ih _ (hstep s e hs)

lemma stepZoom_panX (s : LightboxState) (delta : ℚ) :
    (stepZoom s delta).panX =
      if round2 (min MAX_SCALE (max MIN_SCALE (s.scale + delta))) = MIN_SCALE
      then 0 else s.panX := by
  unfold stepZoom
  rw [setScale_panX]
  simp

lemma stepZoom_panY (s : LightboxState) (delta : ℚ) :
    (stepZoom s delta).panY =
      if round2 (min MAX_SCALE (max MIN_SCALE (s.scale + delta))) = MIN_SCALE
      then 0 else s.panY := by
  unfold stepZoom
  rw [setScale_panY]
  simp

lemma stepZoom_scale (s : LightboxState) (delta : ℚ) :
    (stepZoom s delta).scale = round2 (min MAX_SCALE (max MIN_SCALE (s.scale + delta))) := by
  unfold stepZoom
  exact setScale_scale _ _ _

lemma onWheel_panX (s : LightboxState)
    (deltaY clientX clientY rectLeft rectTop rectWidth rectHeight : ℚ) :
    (onWheel s deltaY clientX clientY rectLeft rectTop rectWidth rectHeight).panX
      = (if round2 (min MAX_SCALE (max MIN_SCALE
            (s.scale + (if deltaY < 0 then 1 else -1) * SCALE_STEP))) = MIN_SCALE
         then 0 else s.panX)
        + (if s.scale < round2 (min MAX_SCALE (max MIN_SCALE
            (s.scale + (if deltaY < 0 then 1 else -1) * SCALE_STEP)))
           then (clientX - (rectLeft + rectWidth / 2)) * (5 / 100) else 0) := by
  unfold onWheel
  dsimp only
  by_cases h1 : deltaY < 0 <;>
    simp only [h1, if_true, if_false, stepZoom_scale, stepZoom_panX] <;>
    split_ifs <;>
    simp_all [stepZoom_scale, stepZoom_panX]

lemma onWheel_panY (s : LightboxState)
    (deltaY clientX clientY rectLeft rectTop rectWidth rectHeight : ℚ) :
    (onWheel s deltaY clientX clientY rectLeft rectTop rectWidth rectHeight).panY
      = (if round2 (min MAX_SCALE (max MIN_SCALE
            (s.scale + (if deltaY < 0 then 1 else -1) * SCALE_STEP))) = MIN_SCALE
         then 0 else s.panY)
        + (if s.scale < round2 (min MAX_SCALE (max MIN_SCALE
            (s.scale + (if deltaY < 0 then 1 else -1) * SCALE_STEP)))
           then (clientY - (rectTop + rectHeight / 2)) * (5 / 100) else 0) := by
  unfold onWheel
  dsimp only
  by_cases h1 : deltaY < 0 <;>
    simp only [h1, if_true, if_false, stepZoom_scale, stepZoom_panY] <;>
    split_ifs <;>
    simp_all [stepZoom_scale, stepZoom_panY]

lemma onPointerMove_of_pinch_zero (hypot : ℚ → ℚ → ℚ) (s : LightboxState)
    (p : Pointer) (h : s.initialPinchDistance = 0) :
    (onPointerMove hypot s p).scale = s.scale
      ∧ (onPointerMove hypot s p).initialPinchDistance = 0 := by
  unfold onPointerMove
  dsimp only
  split
  · exact ⟨rfl, h⟩
  · split
    · split
      · exact ⟨rfl, h⟩
      · exact ⟨rfl, h⟩
    · split
      · split
        · split
          · rename_i hlt
            exfalso
            rw [show ({ s with pointers := pointersSet s.pointers p } :
                LightboxState).initialPinchDistance = s.initialPinchDistance from rfl,
              h] at hlt
            exact lt_irrefl 0 hlt
          · exact ⟨rfl, h⟩
        · exact ⟨rfl, h⟩
      · exact ⟨rfl, h⟩

lemma foldl_pointerMove_scale (hypot : ℚ → ℚ → ℚ) :
    ∀ (moves : List Pointer) (s : LightboxState),
      s.initialPinchDistance = 0 →
      (moves.foldl (fun st q => stepLightbox hypot st (.pointerMove q)) s).scale
        = s.scale := by
  intro moves
  induction moves with
  | nil => intro s _; rfl
  | cons q rest ih =>
      intro s hs
      obtain ⟨h1, h2⟩ := onPointerMove_of_pinch_zero hypot s q hs
      calc (List.foldl (fun st q => stepLightbox hypot st (.pointerMove q))
              (stepLightbox hypot s (.pointerMove q)) rest).scale
          = (stepLightbox hypot s (.pointerMove q)).scale := ih _ h2
        _ = s.scale := h1

/-! ### Claims about the lightbox -/

/-- C1: for every sequence of lightbox operations (discrete zoom steps,
wheel ticks, pinch-gesture updates, resets — and, more generally, any
pointer events) applied to the lightbox view state, the scale never
leaves the interval `[1, 5]`, and performing the reset action always
yields `scale = 1` and `pan = (0, 0)`. -/
theorem lightbox_scale_clamped_and_reset_c1 :
    ∀ (hypot : ℚ → ℚ → ℚ) (events : List LightboxEvent),
      (1 ≤ (runLightbox hypot events).scale ∧ (runLightbox hypot events).scale ≤ 5)
      ∧ ∀ s : LightboxState,
          (stepLightbox hypot s .reset).scale = 1
          ∧ (stepLightbox hypot s .reset).panX = 0
          ∧ (stepLightbox hypot s .reset).panY = 0 := by
  intro hypot events
  constructor
  · exact foldl_stepLightbox_preserves hypot
      (fun s => MIN_SCALE ≤ s.scale ∧ s.scale ≤ MAX_SCALE)
      (fun s e hs => stepLightbox_scale_bounds hypot s e hs) events initialLightbox
      (by norm_num [initialLightbox, MIN_SCALE, MAX_SCALE])
  · intro s
    exact ⟨rfl, rfl, rfl⟩

/-- C8: every scale update performed through `setScale` quantises the
clamped value to two decimal places, so after any sequence of lightbox
operations the scale is an integer multiple of `1/100` (in particular a
pinch update stores the rounded value of `pinchStartScale` times the
distance ratio, never the exact product). -/
theorem setScale_quantisation_c8 :
    (∀ (s : LightboxState) (next : ℚ) (keepPan : Bool),
        (setScale s next keepPan).scale
          = round2 (min MAX_SCALE (max MIN_SCALE next)))
    ∧ ∀ (hypot : ℚ → ℚ → ℚ) (events : List LightboxEvent),
        ∃ k : ℤ, (runLightbox hypot events).scale = (k : ℚ) / 100 := by
  constructor
  · exact setScale_scale
  · intro hypot events
    exact foldl_stepLightbox_preserves hypot
      (fun s => ∃ k : ℤ, s.scale = (k : ℚ) / 100)
      (fun s e hs => stepLightbox_scale_cent hypot s e hs) events initialLightbox
      ⟨100, by norm_num [initialLightbox]⟩

/-- C9: when a pinch gesture begins with the two pointers at identical
coordinates, the recorded `initialPinchDistance` is `0` (because
`Math.hypot 0 0 = 0`), and since the ratio computation in `onPointerMove`
is guarded by `initialPinchDistance > 0`, every subsequent pointer-move
event leaves the scale unchanged and the division is never taken. -/
theorem pinch_zero_distance_guard_c9 :
    ∀ (hypot : ℚ → ℚ → ℚ), hypot 0 0 = 0 →
    ∀ (s : LightboxState) (p1 p2 : ℕ) (x y : ℚ),
      s.pointers = [] → p1 ≠ p2 →
    ∀ (moves : List Pointer),
      (stepLightbox hypot (stepLightbox hypot s (.pointerDown ⟨p1, x, y⟩))
          (.pointerDown ⟨p2, x, y⟩)).initialPinchDistance = 0
      ∧ (moves.foldl (fun st q => stepLightbox hypot st (.pointerMove q))
            (stepLightbox hypot (stepLightbox hypot s (.pointerDown ⟨p1, x, y⟩))
              (.pointerDown ⟨p2, x, y⟩))).scale
        = (stepLightbox hypot (stepLightbox hypot s (.pointerDown ⟨p1, x, y⟩))
            (.pointerDown ⟨p2, x, y⟩)).scale := by
  intro hypot h00 s p1 p2 x y hps hne moves
  have hipd : (stepLightbox hypot (stepLightbox hypot s (.pointerDown ⟨p1, x, y⟩))
      (.pointerDown ⟨p2, x, y⟩)).initialPinchDistance = 0 := by
    simp [stepLightbox, onPointerDown, pointersSet, firstTwo, distanceBetween,
      hps, hne, h00]
  exact ⟨hipd, foldl_pointerMove_scale hypot moves _ hipd⟩

/-- Closed instance discharging the hypotheses of
`pinch_zero_distance_guard_c9` on a concrete pinch that starts with both
pointers at the origin and then moves one pointer. -/
theorem pinch_zero_distance_guard_c9_witness :
    ((fun a b : ℚ => |a| + |b|) 0 0 = 0)
    ∧ initialLightbox.pointers = []
    ∧ (0 : ℕ) ≠ 1
    ∧ (stepLightbox (fun a b : ℚ => |a| + |b|)
          (stepLightbox (fun a b : ℚ => |a| + |b|) initialLightbox
            (.pointerDown ⟨0, 0, 0⟩)) (.pointerDown ⟨1, 0, 0⟩)).initialPinchDistance = 0
    ∧ ([(⟨0, 3, 4⟩ : Pointer)].foldl
          (fun st q => stepLightbox (fun a b : ℚ => |a| + |b|) st (.pointerMove q))
          (stepLightbox (fun a b : ℚ => |a| + |b|)
            (stepLightbox (fun a b : ℚ => |a| + |b|) initialLightbox
              (.pointerDown ⟨0, 0, 0⟩)) (.pointerDown ⟨1, 0, 0⟩))).scale
      = (stepLightbox (fun a b : ℚ => |a| + |b|)
          (stepLightbox (fun a b : ℚ => |a| + |b|) initialLightbox
            (.pointerDown ⟨0, 0, 0⟩)) (.pointerDown ⟨1, 0, 0⟩)).scale := by
  have h := pinch_zero_distance_guard_c9 (fun a b : ℚ => |a| + |b|) (by norm_num)
    initialLightbox 0 1 0 0 rfl (by decide) [⟨0, 3, 4⟩]
  exact ⟨by norm_num, rfl, by decide, h.1, h.2⟩

/-- The nudge part of claim C6 exactly as stated: for every wheel event,
the pan is nudged toward the cursor by 5% of the cursor's offset from the
image centre. -/
def wheelNudgeClaimAt (s : LightboxState)
    (deltaY clientX clientY rectLeft rectTop rectWidth rectHeight : ℚ) : Prop :=
  (onWheel s deltaY clientX clientY rectLeft rectTop rectWidth rectHeight).panX
      = s.panX + (clientX - (rectLeft + rectWidth / 2)) * (5 / 100)
  ∧ (onWheel s deltaY clientX clientY rectLeft rectTop rectWidth rectHeight).panY
      = s.panY + (clientY - (rectTop + rectHeight / 2)) * (5 / 100)

/-- C6, counterexample: on the freshly opened lightbox (scale 1, pan
`(0, 0)`), a zoom-out wheel tick (`deltaY = 1`) with the cursor 100px to
the right of the image centre leaves the pan at `(0, 0)` instead of
nudging it by `100 * 5% = 5`, so a wheel tick does not always nudge the
pan toward the cursor. -/
theorem wheel_nudge_claim_counterexample_c6 :
    ¬ wheelNudgeClaimAt initialLightbox 1 200 0 0 0 200 0 := by
  intro hcl
  obtain ⟨hX, _⟩ := hcl
  norm_num [wheelNudgeClaimAt, onWheel, stepZoom, setScale, round2, round_eq,
    initialLightbox, MIN_SCALE, MAX_SCALE, SCALE_STEP] at hX

/-- C6, amended: each wheel tick steps the scale by `±0.25` in the wheel
direction, clamped to `[1, 5]` and quantised to two decimals; the 5% pan
nudge toward the cursor is applied only when the tick strictly increased
the scale, and a tick whose resulting scale is exactly 1 resets the pan
to `(0, 0)` while any other non-increasing tick leaves the pan unchanged. -/
theorem wheel_step_conditional_nudge_c6 :
    ∀ (s : LightboxState)
      (deltaY clientX clientY rectLeft rectTop rectWidth rectHeight : ℚ),
      (onWheel s deltaY clientX clientY rectLeft rectTop rectWidth rectHeight).scale
        = round2 (min MAX_SCALE (max MIN_SCALE
            (s.scale + (if deltaY < 0 then 1 else -1) * SCALE_STEP)))
      ∧ (onWheel s deltaY clientX clientY rectLeft rectTop rectWidth rectHeight).panX
          = (if round2 (min MAX_SCALE (max MIN_SCALE
                (s.scale + (if deltaY < 0 then 1 else -1) * SCALE_STEP))) = MIN_SCALE
             then 0 else s.panX)
            + (if s.scale < round2 (min MAX_SCALE (max MIN_SCALE
                (s.scale + (if deltaY < 0 then 1 else -1) * SCALE_STEP)))
               then (clientX - (rectLeft + rectWidth / 2)) * (5 / 100) else 0)
      ∧ (onWheel s deltaY clientX clientY rectLeft rectTop rectWidth rectHeight).panY
          = (if round2 (min MAX_SCALE (max MIN_SCALE
                (s.scale + (if deltaY < 0 then 1 else -1) * SCALE_STEP))) = MIN_SCALE
             then 0 else s.panY)
            + (if s.scale < round2 (min MAX_SCALE (max MIN_SCALE
                (s.scale + (if deltaY < 0 then 1 else -1) * SCALE_STEP)))
               then (clientY - (rectTop + rectHeight / 2)) * (5 / 100) else 0) := by
  intro s deltaY clientX clientY rectLeft rectTop rectWidth rectHeight
  exact ⟨onWheel_scale s deltaY clientX clientY rectLeft rectTop rectWidth rectHeight,
    onWheel_panX s deltaY clientX clientY rectLeft rectTop rectWidth rectHeight,
    onWheel_panY s deltaY clientX clientY rectLeft rectTop rectWidth rectHeight⟩

/-! ### Claims about the gallery and the empty state -/

lemma galleryExclusive_updateEmptyState (g : Gallery) :
    galleryExclusive (updateEmptyState g) := by
  unfold updateEmptyState galleryExclusive
  cases h : g.cards with
  | nil => simp [h]
  | cons c cs => simp [h]

lemma galleryExclusive_add (g : Gallery) (meta : Option AttachmentMeta)
    (h : galleryExclusive g) :
    galleryExclusive (addAttachmentFromMeta g meta) := by
  unfold addAttachmentFromMeta
  cases meta with
  | none => exact h
  | some m => exact galleryExclusive_updateEmptyState _

/-- C2: after gallery initialisation (`updateEmptyState` is called once
at script start, on the server-rendered card list) and after every merge
of an upload-response attachment into the gallery, exactly one of "at
least one attachment card is rendered" and "the empty-state placeholder
is visible" holds — never both and never neither. -/
theorem gallery_empty_state_exclusive_c2 :
    ∀ (cards0 : List Card) (b0 : Bool) (metas : List (Option AttachmentMeta)),
      galleryExclusive
        (metas.foldl addAttachmentFromMeta (updateEmptyState ⟨cards0, b0⟩)) := by
  intro cards0 b0 metas
  have h0 : galleryExclusive (updateEmptyState ⟨cards0, b0⟩) :=
    galleryExclusive_updateEmptyState _
  revert h0
  generalize updateEmptyState ⟨cards0, b0⟩ = g
  revert g
  induction metas with
  | nil => intro g h; exact h
  | cons m rest ih => intro g h; exact ih _ (galleryExclusive_add g m h)

/-- C5, counterexample: with cards `["1", "2"]` rendered in that order,
merging an upload-response entry whose id is `2` yields the order
`["2", "1"]` — the updated card is moved to the front — while the claim's
in-place replacement (`upsertInPlaceSpec`) would yield `["1", "2"]`, so
"replace if already rendered" does not hold in the positional sense. -/
theorem upsert_in_place_counterexample_c5 :
    (addAttachmentFromMeta
        ⟨[⟨"1", ⟨1, "a.png", none, true, none, none⟩⟩,
          ⟨"2", ⟨2, "b.png", none, true, none, none⟩⟩], false⟩
        (some ⟨2, "b-v2.png", none, true, none, none⟩)).cards.map Card.attachmentId
      = ["2", "1"]
    ∧ (upsertInPlaceSpec
        [⟨"1", ⟨1, "a.png", none, true, none, none⟩⟩,
         ⟨"2", ⟨2, "b.png", none, true, none, none⟩⟩]
        ⟨"2", ⟨2, "b-v2.png", none, true, none, none⟩⟩).map Card.attachmentId
      = ["1", "2"]
    ∧ (["2", "1"] : List String) ≠ ["1", "2"] := by
  refine ⟨by decide, by decide, by decide⟩

/-- C5, amended: merging an upload-response entry into the gallery
removes any already rendered card with the entry's id and prepends the
freshly rendered card at the front of the card list (so an existing card
is superseded but moves to the front rather than being replaced in
place; a new id is simply prepended), and on a 2xx upload response every
entry of the `attachments` array is merged this way, in order. -/
theorem upsert_removes_then_prepends_c5 :
    ∀ (g : Gallery) (m : AttachmentMeta),
      (addAttachmentFromMeta g (some m)).cards
        = ⟨toString m.id, m⟩ :: removeFirstById g.cards (toString m.id)
      ∧ ∀ (status : ℕ) (r : UploadResponse) (g0 : Gallery),
          200 ≤ status → status < 300 →
          onUploadLoadGallery status (some r) g0
            = r.attachments.foldl addAttachmentFromMeta g0 := by
  intro g m
  constructor
  · unfold addAttachmentFromMeta renderAttachment updateEmptyState
    dsimp only
    split <;> rfl
  · intro status r g0 h1 h2
    unfold onUploadLoadGallery
    rw [if_pos ⟨h1, h2⟩]

/-- Closed instance discharging the hypotheses of
`upsert_removes_then_prepends_c5` at a concrete 2xx status. -/
theorem upsert_removes_then_prepends_c5_witness :
    (addAttachmentFromMeta ⟨[], true⟩ (some ⟨7, "c.png", none, true, none, none⟩)).cards
      = [⟨"7", ⟨7, "c.png", none, true, none, none⟩⟩]
    ∧ (200 ≤ 201 ∧ 201 < 300)
    ∧ onUploadLoadGallery 201
        (some ⟨none, [], [some ⟨7, "c.png", none, true, none, none⟩]⟩) ⟨[], true⟩
      = [some (⟨7, "c.png", none, true, none, none⟩ : AttachmentMeta)].foldl
          addAttachmentFromMeta ⟨[], true⟩ := by
  have h := upsert_removes_then_prepends_c5 ⟨[], true⟩ ⟨7, "c.png", none, true, none, none⟩
  refine ⟨?_, ⟨by decide, by decide⟩, ?_⟩
  · rw [h.1]
    decide
  · exact h.2 201 ⟨none, [], [some ⟨7, "c.png", none, true, none, none⟩]⟩ ⟨[], true⟩
      (by decide) (by decide)

/-! ### Claims about the upload queue -/

/-- Claim C3 exactly as stated: every queue item that the upload `load`
handler leaves in a terminal display state (complete or error) has its
removal scheduled with the fixed 2500 ms delay. -/
def queueAutoRemovalClaim : Prop :=
  ∀ (status : ℕ) (response : Option UploadResponse) (labels : UploadLabels)
    (item : QueueItemView),
    queueItemTerminal (onUploadLoad status response labels item) = true →
    (onUploadLoad status response labels item).removalDelayMs = some 2500

/-- C3, counterexample: a 400 response puts the fresh queue item into the
terminal error state, yet no removal is scheduled, so terminal error
items are not auto-removed after 2.5 s. -/
theorem queue_error_not_auto_removed_counterexample_c3 :
    ¬ queueAutoRemovalClaim := by
  intro h
  have h400 := h 400 none ⟨"Upload files", "Uploading", "Uploaded", "Upload failed"⟩
    (createQueueItem "f.png" "Uploading") (by decide)
  exact absurd h400 (by decide)

/-- C3, amended: a queue item created by `createQueueItem` is scheduled
for removal from the DOM with the fixed 2500 ms (2.5 s) delay exactly
when the upload's `load` handler sees a 2xx status (terminal status
`complete`); a non-2xx `load` and a network `error` handler leave the
item in place with no scheduled removal (terminal status `error` is not
auto-removed). -/
theorem queue_removal_only_on_complete_c3 :
    ∀ (status : ℕ) (response : Option UploadResponse) (labels : UploadLabels)
      (name statusText : String),
      (onUploadLoad status response labels (createQueueItem name statusText)).removalDelayMs
        = (if 200 ≤ status ∧ status < 300 then some 2500 else none)
      ∧ queueItemTerminal (onUploadLoad status response labels (createQueueItem name statusText))
        = true
      ∧ (onUploadNetworkFailure labels (createQueueItem name statusText)).removalDelayMs
        = none := by
  intro status response labels name statusText
  refine ⟨?_, ?_, rfl⟩
  · unfold onUploadLoad createQueueItem
    dsimp only
    split_ifs <;> rfl
  · unfold onUploadLoad createQueueItem queueItemTerminal
    dsimp only
    split_ifs <;> rfl

/-! ### Claims about the error message resolution -/

/-- C4, counterexample: when the first per-file entry of the `errors`
array carries two validation error strings, the displayed message is
their comma join, not the first string alone. -/
theorem error_message_join_counterexample_c4 :
    resolveErrorMessage
        (some ⟨none, [⟨"f.png", ["too large", "unsupported type"]⟩], []⟩)
        "Upload failed"
      = "too large, unsupported type"
    ∧ ("too large, unsupported type" : String) ≠ "too large" := by
  constructor
  · unfold resolveErrorMessage joinComma
    decide
  · decide

/-- C4, amended: on a non-2xx upload response the displayed message is
resolved in priority order — the structured `error` field when present
and non-empty; otherwise the comma-joined validation error strings of
the first per-file entry of the `errors` array (which is the first error
string whenever that entry carries a single reason), when non-empty;
otherwise the generic failed-upload label, which is also used when no
response body could be read at all. -/
theorem error_message_priority_c4 :
    ∀ (r : UploadResponse) (fb : String),
      (∀ e, r.error = some e → e ≠ "" →
        resolveErrorMessage (some r) fb = e)
      ∧ (r.error.getD "" = "" →
          ∀ fe rest, r.errors = fe :: rest → joinComma fe.errors ≠ "" →
          resolveErrorMessage (some r) fb = joinComma fe.errors)
      ∧ (r.error.getD "" = "" → r.errors = [] →
          resolveErrorMessage (some r) fb = fb)
      ∧ resolveErrorMessage none fb = fb := by
  intro r fb
  refine ⟨?_, ?_, ?_, ?_⟩
  · intro e he hne
    unfold resolveErrorMessage
    dsimp only
    rw [he]
    simp [hne]
  · intro hfirst fe rest herrs hjoin
    unfold resolveErrorMessage
    dsimp only
    rw [herrs, hfirst]
    simp [hjoin]
  · intro hfirst herrs
    unfold resolveErrorMessage
    dsimp only
    rw [herrs, hfirst]
    simp
  · unfold resolveErrorMessage
    dsimp only
    simp

/-- Closed instance discharging the hypotheses of
`error_message_priority_c4` on one concrete response per priority rank. -/
theorem error_message_priority_c4_witness :
    resolveErrorMessage (some ⟨some "boom", [⟨"g.png", ["too large"]⟩], []⟩)
        "Upload failed" = "boom"
    ∧ resolveErrorMessage (some ⟨none, [⟨"g.png", ["too large"]⟩], []⟩)
        "Upload failed" = "too large"
    ∧ resolveErrorMessage (some ⟨none, [], []⟩) "Upload failed" = "Upload failed"
    ∧ resolveErrorMessage none "Upload failed" = "Upload failed" := by
  refine ⟨?_, ?_, ?_, ?_⟩
  · exact (error_message_priority_c4 ⟨some "boom", [⟨"g.png", ["too large"]⟩], []⟩
      "Upload failed").1 "boom" rfl (by decide)
  · have h := (error_message_priority_c4 ⟨none, [⟨"g.png", ["too large"]⟩], []⟩
      "Upload failed").2.1 (by decide) ⟨"g.png", ["too large"]⟩ [] rfl (by decide)
    rw [h]
    decide
  · exact (error_message_priority_c4 ⟨none, [], []⟩ "Upload failed").2.2.1
      (by decide) rfl
  · exact (error_message_priority_c4 ⟨none, [], []⟩ "Upload failed").2.2.2

/-! ### Claim about the document preview triggers -/

/-- C7: a document preview trigger whose `data-external` flag is `"1"`
opens its preview URL in a new browsing context and never the document
preview modal; a trigger without that flag (and with a non-empty
`data-src`, which every server-rendered preview trigger carries) opens
the document preview modal instead. -/
theorem external_preview_bypasses_modal_c7 :
    ∀ (previewLabel : String) (t : PreviewTrigger),
      (t.external = some "1" →
        onPreviewTriggerClick previewLabel t = .openNewContext t.src
        ∧ isModalAction (onPreviewTriggerClick previewLabel t) = false)
      ∧ (t.external ≠ some "1" →
          ∀ s, t.src = some s → s ≠ "" →
          onPreviewTriggerClick previewLabel t = .openModal s (t.name.getD previewLabel)
          ∧ isModalAction (onPreviewTriggerClick previewLabel t) = true) := by
  intro previewLabel t
  constructor
  · intro hext
    unfold onPreviewTriggerClick
    rw [if_pos hext]
    exact ⟨rfl, rfl⟩
  · intro hext s hsrc hne
    unfold onPreviewTriggerClick
    rw [if_neg hext, hsrc]
    simp [hne, isModalAction]

/-- Closed instance discharging the hypotheses of
`external_preview_bypasses_modal_c7` on one external and one internal
trigger. -/
theorem external_preview_bypasses_modal_c7_witness :
    onPreviewTriggerClick "Preview" ⟨some "1", some "/m/d.pdf", some "Doc"⟩
      = .openNewContext (some "/m/d.pdf")
    ∧ isModalAction
        (onPreviewTriggerClick "Preview" ⟨some "1", some "/m/d.pdf", some "Doc"⟩) = false
    ∧ onPreviewTriggerClick "Preview" ⟨none, some "/m/d.pdf", some "Doc"⟩
      = .openModal "/m/d.pdf" "Doc"
    ∧ isModalAction
        (onPreviewTriggerClick "Preview" ⟨none, some "/m/d.pdf", some "Doc"⟩) = true := by
  have h1 := (external_preview_bypasses_modal_c7 "Preview"
    ⟨some "1", some "/m/d.pdf", some "Doc"⟩).1 rfl
  have h2 := (external_preview_bypasses_modal_c7 "Preview"
    ⟨none, some "/m/d.pdf", some "Doc"⟩).2 (by decide) "/m/d.pdf" rfl (by decide)
  exact ⟨h1.1, h1.2, h2.1, h2.2⟩

/-! ### Claim about the delete-URL decoration -/

lemma setParam_of_not_has (ps : List (String × String)) (k v : String)
    (h : hasParam ps k = false) :
    setParam ps k v = ps ++ [(k, v)] := by
  induction ps with
  | nil => rfl
  | cons kv rest ih =>
      unfold hasParam at h ih
      simp only [List.any_cons, Bool.or_eq_false_iff] at h
      unfold setParam
      rw [if_neg (by simpa using h.1)]
      rw [ih h.2]
      simp

/-- C10: `decorateDeleteUrl` never overwrites an existing `next` query
parameter — a parsed delete URL that already carries one is returned
unchanged — and only when `next` is absent (and a return-to value is
configured) is the current page's return-to path appended as `next`,
leaving path, hash and the other parameters untouched; the string
fallback branch likewise returns any URL already containing `"next="`
unchanged. -/
theorem delete_url_preserves_next_c10 :
    ∀ (deleteNext : String) (u : ParsedUrl),
      (hasParam u.searchParams "next" = true →
        decorateDeleteUrl deleteNext u = u)
      ∧ (hasParam u.searchParams "next" = false → deleteNext ≠ "" →
          (decorateDeleteUrl deleteNext u).searchParams
            = u.searchParams ++ [("next", deleteNext)]
          ∧ (decorateDeleteUrl deleteNext u).pathname = u.pathname
          ∧ (decorateDeleteUrl deleteNext u).hash = u.hash)
      ∧ (∀ encode url, urlIncludes url "next=" = true →
          decorateDeleteUrlNoParse encode deleteNext url = url) := by
  intro deleteNext u
  refine ⟨?_, ?_, ?_⟩
  · intro hhas
    unfold decorateDeleteUrl
    rw [if_neg]
    intro hcl
    rw [hhas] at hcl
    exact absurd hcl.2 (by decide)
  · intro hhas hne
    unfold decorateDeleteUrl
    rw [if_pos ⟨hne, hhas⟩]
    exact ⟨setParam_of_not_has _ _ _ hhas, rfl, rfl⟩
  · intro encode url hinc
    unfold decorateDeleteUrlNoParse
    rw [if_pos (Or.inl hinc)]

/-- Closed instance discharging the hypotheses of
`delete_url_preserves_next_c10` on concrete URLs with and without a
`next` parameter. -/
theorem delete_url_preserves_next_c10_witness :
    decorateDeleteUrl "/wo/5/" ⟨"/att/9/delete/", [("next", "/keep/")], ""⟩
      = ⟨"/att/9/delete/", [("next", "/keep/")], ""⟩
    ∧ (decorateDeleteUrl "/wo/5/" ⟨"/att/9/delete/", [("tab", "files")], ""⟩).searchParams
      = [("tab", "files"), ("next", "/wo/5/")]
    ∧ decorateDeleteUrlNoParse id "/wo/5/" "/att/9/delete/?next=%2Fkeep%2F"
      = "/att/9/delete/?next=%2Fkeep%2F" := by
  have h1 := (delete_url_preserves_next_c10 "/wo/5/"
    ⟨"/att/9/delete/", [("next", "/keep/")], ""⟩).1 (by decide)
  have h2 := (delete_url_preserves_next_c10 "/wo/5/"
    ⟨"/att/9/delete/", [("tab", "files")], ""⟩).2.1 (by decide) (by decide)
  have h3 := (delete_url_preserves_next_c10 "/wo/5/"
    ⟨"/att/9/delete/", [], ""⟩).2.2 id "/att/9/delete/?next=%2Fkeep%2F" (by decide)
  exact ⟨h1, h2.1, h3⟩

end Attachments
end BuildingManagement
